import Mathlib

/-!
Verification of the StyleSense application (src/app.py) against its
specification. The sqlite tables are modelled as insertion-ordered lists of
rows (the app never deletes rows and its queries scan in rowid order, which
for this schema is insertion order). The generation service is an opaque
client `GenClient`; a raised exception from it, or from a dict lookup, is an
`Except.error` escaping the function, while handled outcomes are `Except.ok`.
-/

namespace StyleSense

/-- A row of the `users` table. The schema also has profile columns
(gender, age, ...) but the code only ever inserts username and password
(the rest stay NULL and are never read back), so a row is modelled by the
two populated columns. -/
structure UserRow where
  username : String
  password : String
  deriving DecidableEq, Repr

/-- A row of the `favorites` table: username, outfit text, timestamp. -/
structure FavRow where
  username : String
  outfit : String
  created_at : String
  deriving DecidableEq, Repr

/-- The persistent store: the two tables, each as an insertion-ordered list. -/
structure DB where
  users : List UserRow
  favorites : List FavRow
  deriving DecidableEq, Repr

/-- The empty database (both tables freshly created). -/
def DB.empty : DB := ⟨[], []⟩

/-- `register_user` (app.py lines 67-74): INSERT of (username, password);
the UNIQUE constraint on username makes the insert raise when the username
is already present, and the bare `except` turns any exception into `False`.
A failed single INSERT statement leaves the table unchanged (sqlite
statement atomicity; `commit` runs only on the success path). -/
def register_user (username password : String) (db : DB) : Bool × DB :=
  if db.users.any (fun r => r.username == username) then
    (false, db)
  else
    (true, ⟨db.users ++ [⟨username, password⟩], db.favorites⟩)

/-- `login_user` (app.py lines 77-80): SELECT the first row whose username
and password both match exactly; `fetchone` gives that row or None. -/
def login_user (username password : String) (db : DB) : Option UserRow :=
  db.users.find? (fun r => r.username == username && r.password == password)

/-- `save_favorite` (app.py lines 83-86): INSERT of (username, outfit,
timestamp). The timestamp comes from `datetime.now()`, an external input,
so it is a parameter here. -/
def save_favorite (username outfit created_at : String) (db : DB) : DB :=
  ⟨db.users, db.favorites ++ [⟨username, outfit, created_at⟩]⟩

/-- `get_favorites` (app.py lines 89-92): SELECT outfit, created_at WHERE
username matches; no ORDER BY, so rows come back in table-scan (= insertion)
order. -/
def get_favorites (username : String) (db : DB) : List (String × String) :=
  (db.favorites.filter (fun r => r.username == username)).map
    (fun r => (r.outfit, r.created_at))

/-- A user profile as stored in `st.session_state.profile`: a Python dict.
Each field is `none` when the key is absent. The Save Profile handler
(app.py lines 229-237) always stores all six keys, but the prompt builders
are specified over arbitrary profiles, so absence is representable. -/
structure Profile where
  gender : Option String
  age : Option Nat
  body_type : Option String
  preferences : Option (List String)
  colors : Option String
  budget : Option String
  deriving DecidableEq, Repr

/-- The profile with no keys set, i.e. the Python dict with none of the six
keys present. -/
def emptyProfile : Profile := ⟨none, none, none, none, none, none⟩

/-- The single-quote character, used by the Python repr of strings. -/
def sq : String := String.singleton (Char.ofNat 39)

/-- Python repr of a plain string (no embedded quotes or escapes occur in
the fixed choice lists the app offers). -/
def pyStrRepr (s : String) : String := sq ++ s ++ sq

/-- Python str() of a list of strings, as an f-string renders the
`preferences` multiselect value, e.g. a one-element list of Casual. -/
def pyListRepr (l : List String) : String :=
  "[" ++ String.intercalate ", " (l.map pyStrRepr) ++ "]"

/-- Rendering of `dict.get(key)` for a string-valued key in an f-string:
a missing key yields Python None, which str() renders as the text None. -/
def optStr : Option String → String
  | some s => s
  | none => "None"

/-- Rendering of `dict.get(key)` for the integer-valued age key. -/
def optNatStr : Option Nat → String
  | some n => toString n
  | none => "None"

/-- Rendering of `dict.get(key)` for the list-valued preferences key. -/
def optListStr : Option (List String) → String
  | some l => pyListRepr l
  | none => "None"

/-- A Python exception escaping a function of the app. -/
inductive PyError where
  | keyError (key : String)
  | genError (msg : String)
  deriving DecidableEq, Repr

/-- The external generation service (`model.generate_content(p).text`):
given the prompt it either returns text or raises. -/
def GenClient := String → Except String String

/-- The prompt built by `generate_recommendation` (app.py lines 100-121).
The f-string subscripts the profile dict directly (`profile['gender']` and
so on, left to right), so the first absent key raises KeyError; with all six
keys present the interpolated text is returned. -/
def recommendationPrompt (profile : Profile) (occasion weather : String) :
    Except PyError String :=
  match profile.gender, profile.age, profile.body_type, profile.preferences,
      profile.colors, profile.budget with
  | none, _, _, _, _, _ => Except.error (PyError.keyError "gender")
  | some _, none, _, _, _, _ => Except.error (PyError.keyError "age")
  | some _, some _, none, _, _, _ => Except.error (PyError.keyError "body_type")
  | some _, some _, some _, none, _, _ => Except.error (PyError.keyError "preferences")
  | some _, some _, some _, some _, none, _ => Except.error (PyError.keyError "colors")
  | some _, some _, some _, some _, some _, none => Except.error (PyError.keyError "budget")
  | some gender, some age, some body_type, some preferences, some colors, some budget =>
      Except.ok
        ("\nYou are a professional AI Fashion Stylist.\n\nUser Profile:\nGender: "
          ++ gender
          ++ "\nAge: " ++ toString age
          ++ "\nBody Type: " ++ body_type
          ++ "\nStyle Preference: " ++ pyListRepr preferences
          ++ "\nFavorite Colors: " ++ colors
          ++ "\nBudget: " ++ budget
          ++ "\n\nOccasion: " ++ occasion
          ++ "\nWeather: " ++ weather
          ++ "\n\nProvide:\n1. 3 Outfit Suggestions\n2. Color combinations\n3. Accessories recommendation\n4. Styling tips\n5. Explain WHY these outfits suit the user\nMake it modern, trendy and practical.\n")

/-- `generate_recommendation` (app.py lines 99-124): build the prompt, then
call the generation service with it. The second component records the
prompts actually sent to the service (the test double of the spec). A
service exception is not caught and escapes as `PyError.genError`. -/
def generate_recommendation (gen : GenClient) (profile : Profile)
    (occasion weather : String) : Except PyError String × List String :=
  match recommendationPrompt profile occasion weather with
  | Except.error e => (Except.error e, [])
  | Except.ok prompt =>
      match gen prompt with
      | Except.ok text => (Except.ok text, [prompt])
      | Except.error e => (Except.error (PyError.genError e), [prompt])

/-- The fixed prompt of `generate_trends` (app.py lines 128-136). -/
def trendPrompt : String :=
  "\nGenerate latest global fashion trends for 2026.\nInclude:\n- Trending colors\n- Popular fabrics\n- Streetwear trends\n- Formal trends\nKeep it short and modern.\n"

/-- `generate_trends` (app.py lines 127-137): one service call with the
fixed prompt; a service exception escapes uncaught. -/
def generate_trends (gen : GenClient) : Except PyError String × List String :=
  match gen trendPrompt with
  | Except.ok text => (Except.ok text, [trendPrompt])
  | Except.error e => (Except.error (PyError.genError e), [trendPrompt])

/-- The prompt built by `fashion_chatbot` (app.py lines 141-154). Here the
profile is read with `.get`, so missing keys render as None instead of
raising. -/
def chatPrompt (user_message : String) (profile : Profile) : String :=
  "\nYou are StyleSense AI fashion assistant.\n\nUser Profile:\nGender: "
    ++ optStr profile.gender
    ++ "\nAge: " ++ optNatStr profile.age
    ++ "\nBody Type: " ++ optStr profile.body_type
    ++ "\nPreferences: " ++ optListStr profile.preferences
    ++ "\n\nUser Question:\n" ++ user_message
    ++ "\n\nProvide helpful, trendy, personalized styling advice.\n"

/-- `fashion_chatbot` (app.py lines 140-156): build the chat prompt, call
the service; a service exception escapes uncaught. -/
def fashion_chatbot (gen : GenClient) (user_message : String)
    (profile : Profile) : Except PyError String × List String :=
  match gen (chatPrompt user_message profile) with
  | Except.ok text => (Except.ok text, [chatPrompt user_message profile])
  | Except.error e =>
      (Except.error (PyError.genError e), [chatPrompt user_message profile])

/-- The per-session state (`st.session_state`): the logged-in user, and the
profile, which is the empty dict (`none` here) until Save Profile stores all
six keys. -/
structure SessionState where
  user : Option String
  profile : Option Profile
  deriving DecidableEq, Repr

/-- Session-state initialization (app.py lines 163-167): user None,
profile the empty dict. -/
def initSession : SessionState := ⟨none, none⟩

/-- Successful login (app.py line 196) sets the current user. -/
def loginSuccess (s : SessionState) (username : String) : SessionState :=
  ⟨some username, s.profile⟩

/-- The Save Profile button (app.py lines 229-237) stores a dict with all
six keys present. -/
def saveProfileClick (s : SessionState) (gender : String) (age : Nat)
    (body_type : String) (preferences : List String)
    (colors budget : String) : SessionState :=
  ⟨s.user, some ⟨some gender, some age, some body_type, some preferences,
    some colors, some budget⟩⟩

/-- The Logout menu item (app.py lines 214-216): it sets
`st.session_state.user = None` and reruns; `st.session_state.profile` is
not touched. -/
def logoutTransition (s : SessionState) : SessionState :=
  ⟨none, s.profile⟩

/-- What a page handler renders for one click. -/
inductive PageRender where
  | errorMsg (msg : String)
  | markdown (text : String)
  deriving DecidableEq, Repr

/-- The Generate Recommendations click handler (app.py lines 258-268): with
an empty profile it renders an inline error and stops; otherwise it calls
`generate_recommendation`. An escaped `PyError` aborts the script run (the
outer `Except.error` case: nothing is rendered for this action). The second
component is the list of prompts sent to the generation service. -/
def recommendClick (gen : GenClient) (s : SessionState)
    (occasion weather : String) : Except PyError PageRender × List String :=
  match s.profile with
  | none => (Except.ok (PageRender.errorMsg "Please fill your profile first."), [])
  | some p =>
      match generate_recommendation gen p occasion weather with
      | (Except.ok text, tr) => (Except.ok (PageRender.markdown text), tr)
      | (Except.error e, tr) => (Except.error e, tr)

/-- The Ask click handler of the chat page (app.py lines 308-317): with an
empty profile it renders an inline error and stops; otherwise it calls
`fashion_chatbot`. -/
def chatClick (gen : GenClient) (s : SessionState) (user_message : String) :
    Except PyError PageRender × List String :=
  match s.profile with
  | none => (Except.ok (PageRender.errorMsg "Please complete profile first."), [])
  | some p =>
      match fashion_chatbot gen user_message p with
      | (Except.ok text, tr) => (Except.ok (PageRender.markdown text), tr)
      | (Except.error e, tr) => (Except.error e, tr)

/-- Checks whether `needle` occurs contiguously inside `hay`. -/
def containsChars (needle : List Char) : List Char → Bool
  | [] => needle.isEmpty
  | c :: rest => needle.isPrefixOf (c :: rest) || containsChars needle rest

/-- String containment: `strContains hay needle` holds when `needle` occurs
verbatim inside `hay`. -/
def strContains (hay needle : String) : Bool :=
  containsChars needle.data hay.data

/-- Running a list of `save_favorite` calls (username, outfit, timestamp)
in order against a database. -/
def applySaves : List (String × String × String) → DB → DB
  | [], db => db
  | (u, t, ts) :: rest, db => applySaves rest (save_favorite u t ts db)

/-- The concrete profile of the spec testable property for the
recommendation prompt. -/
def c5Profile : Profile :=
  ⟨some "Female", some 28, some "Athletic", some ["Casual"], some "Blue",
    some "Medium"⟩

/-- A generation client standing in for a network or service error: every
call raises. -/
def failingGen : GenClient := fun _ => Except.error "network timeout"

/-- A logged-in session with a fully populated profile. -/
def loggedSession : SessionState := ⟨some "alice", some c5Profile⟩

/-- A users table holding one registered account. -/
def authDB : DB := ⟨[⟨"alice", "pw"⟩], []⟩

theorem str_data_append (s t : String) : (s ++ t).data = s.data ++ t.data := rfl

theorem isPrefixOf_append_right (n h t : List Char)
    (hp : n.isPrefixOf h = true) : n.isPrefixOf (h ++ t) = true := by
  induction n generalizing h with
  | nil => simp [List.isPrefixOf]
  | cons c cs ih =>
      cases h with
      | nil => simp [List.isPrefixOf] at hp
      | cons d ds =>
          simp only [List.cons_append]
          simp only [List.isPrefixOf, Bool.and_eq_true] at hp ⊢
          exact ⟨hp.1, ih ds hp.2⟩

theorem containsChars_nil (t : List Char) : containsChars [] t = true := by
  induction t with
  | nil => rfl
  | cons c cs ih => simp [containsChars, List.isPrefixOf]

theorem containsChars_append (n h t : List Char)
    (hc : containsChars n h = true) : containsChars n (h ++ t) = true := by
  induction h with
  | nil =>
      have hn : n = [] := by
        simpa [containsChars, List.isEmpty_iff] using hc
      subst hn
      exact containsChars_nil t
  | cons c cs ih =>
      simp only [List.cons_append, containsChars, Bool.or_eq_true] at hc ⊢
      rcases hc with hp | hr
      · exact Or.inl (isPrefixOf_append_right n (c :: cs) t hp)
      · exact Or.inr (ih hr)

theorem strContains_append_left (a b n : String)
    (hc : strContains a n = true) : strContains (a ++ b) n = true := by
  unfold strContains at hc ⊢
  rw [str_data_append]
  exact containsChars_append n.data a.data b.data hc

theorem get_favorites_save (u v t ts : String) (db : DB) :
    get_favorites u (save_favorite v t ts db)
      = get_favorites u db ++ (if v == u then [(t, ts)] else []) := by
  unfold get_favorites save_favorite
  rw [List.filter_append, List.map_append]
  by_cases h : v = u
  · subst h; simp
  · simp [h]

theorem get_favorites_applySaves (ops : List (String × String × String))
    (u : String) (db : DB) :
    get_favorites u (applySaves ops db)
      = get_favorites u db
        ++ (ops.filter (fun x => x.1 == u)).map (fun x => (x.2.1, x.2.2)) := by
  induction ops generalizing db with
  | nil => simp [applySaves]
  | cons hd tl ih =>
      obtain ⟨v, t, ts⟩ := hd
      show get_favorites u (applySaves tl (save_favorite v t ts db)) = _
      rw [ih, get_favorites_save]
      by_cases h : v = u
      · subst h; simp
      · simp [h]

set_option maxRecDepth 40000

/-- C1: registering a username twice: after a first successful
`register_user` the second call with the same username returns false, and
in general `register_user` returns false whenever a row with that username
is already in the users table. -/
theorem C1_register_duplicate :
    (∀ (u p : String) (db : DB),
        (∃ r ∈ db.users, r.username = u) → (register_user u p db).1 = false)
      ∧ (∀ (u p1 p2 : String) (db : DB),
          (register_user u p1 db).1 = true →
          (register_user u p2 (register_user u p1 db).2).1 = false) := by
  constructor
  · intro u p db h
    obtain ⟨r, hr, hru⟩ := h
    unfold register_user
    rw [if_pos (List.any_eq_true.mpr ⟨r, hr, by simp [hru]⟩)]
  · intro u p1 p2 db h1
    have hc : ¬ db.users.any (fun r => r.username == u) = true := by
      intro hc
      unfold register_user at h1
      rw [if_pos hc] at h1
      exact Bool.false_ne_true h1
    unfold register_user
    rw [if_neg hc]
    rw [if_pos (List.any_eq_true.mpr ⟨⟨u, p1⟩, by simp, by simp⟩)]

/-- C1 witness: concrete duplicate registrations return false. -/
theorem C1_witness :
    (register_user "alice" "pw3" ⟨[⟨"alice", "pw1"⟩], []⟩).1 = false
      ∧ (register_user "alice" "pw2" (register_user "alice" "pw1" DB.empty).2).1
          = false :=
  ⟨C1_register_duplicate.1 "alice" "pw3" ⟨[⟨"alice", "pw1"⟩], []⟩
      ⟨⟨"alice", "pw1"⟩, by decide, rfl⟩,
    C1_register_duplicate.2 "alice" "pw1" "pw2" DB.empty (by decide)⟩

/-- C2: with an empty (unset) profile, both the recommendation click and
the chat click render the inline empty-profile error and send no prompt to
the generation client (the recorded call list is empty), for every client. -/
theorem C2_empty_profile_no_call (gen : GenClient) (s : SessionState)
    (occasion weather msg : String) (h : s.profile = none) :
    recommendClick gen s occasion weather
        = (Except.ok (PageRender.errorMsg "Please fill your profile first."), [])
      ∧ chatClick gen s msg
        = (Except.ok (PageRender.errorMsg "Please complete profile first."), []) := by
  unfold recommendClick chatClick
  rw [h]
  exact ⟨rfl, rfl⟩

/-- C2 witness: a fresh logged-in session with the empty profile. -/
theorem C2_witness :
    recommendClick (fun _ => Except.ok "resp") ⟨some "alice", none⟩ "Office" "Cold"
        = (Except.ok (PageRender.errorMsg "Please fill your profile first."), [])
      ∧ chatClick (fun _ => Except.ok "resp") ⟨some "alice", none⟩ "hello"
        = (Except.ok (PageRender.errorMsg "Please complete profile first."), []) :=
  C2_empty_profile_no_call (fun _ => Except.ok "resp") ⟨some "alice", none⟩
    "Office" "Cold" "hello" rfl

/-- C3: what the code actually does on a generation-service failure: the
exception escapes the recommendation, chat and trends handlers uncaught
(the handler result is the escaped `PyError.genError`, not a rendered
`PageRender` value), aborting that script run instead of surfacing a
GenerationFailure result. Session state is untouched on this path: the same
unchanged session still succeeds with a working client. -/
theorem C3_generation_failure_uncaught :
    (recommendClick failingGen loggedSession "Office" "Cold").1
        = Except.error (PyError.genError "network timeout")
      ∧ (chatClick failingGen loggedSession "What should I wear today").1
          = Except.error (PyError.genError "network timeout")
      ∧ (generate_trends failingGen).1
          = Except.error (PyError.genError "network timeout")
      ∧ (recommendClick (fun _ => Except.ok "outfit text") loggedSession
            "Office" "Cold").1
          = Except.ok (PageRender.markdown "outfit text") :=
  ⟨rfl, rfl, rfl, rfl⟩

/-- C4 counterexample: the recommendation prompt builder does fail on a
profile with missing fields: on the empty profile it raises KeyError for
gender rather than producing a prompt. -/
theorem C4_counterexample :
    recommendationPrompt emptyProfile "Office" "Cold"
      = Except.error (PyError.keyError "gender") := rfl

/-- C4 amended: every prompt builder is a pure function of its input
(deterministic, no external state, as embedded). The chat builder tolerates
missing profile fields, rendering them as the placeholder text None; the
recommendation builder succeeds on every profile with all six fields
present, but raises KeyError on a missing field (see the counterexample). -/
theorem C4_prompt_builders_amended :
    (∀ (p : Profile) (occasion weather : String),
        p.gender.isSome = true → p.age.isSome = true →
        p.body_type.isSome = true → p.preferences.isSome = true →
        p.colors.isSome = true → p.budget.isSome = true →
        (recommendationPrompt p occasion weather).isOk = true)
      ∧ (∀ (msg : String) (p : Profile), p.gender = none →
          strContains (chatPrompt msg p) "Gender: None" = true) := by
  constructor
  · intro p occasion weather hg ha hb hp hc hbu
    obtain ⟨g, hg⟩ := Option.isSome_iff_exists.mp hg
    obtain ⟨a, ha⟩ := Option.isSome_iff_exists.mp ha
    obtain ⟨b, hb⟩ := Option.isSome_iff_exists.mp hb
    obtain ⟨pr, hp⟩ := Option.isSome_iff_exists.mp hp
    obtain ⟨c, hc⟩ := Option.isSome_iff_exists.mp hc
    obtain ⟨bu, hbu⟩ := Option.isSome_iff_exists.mp hbu
    unfold recommendationPrompt
    rw [hg, ha, hb, hp, hc, hbu]
    rfl
  · intro msg p h
    unfold chatPrompt
    rw [h]
    iterate 9 apply strContains_append_left
    decide

/-- C4 witness: the recommendation builder succeeds on the fully populated
profile; the chat builder renders a missing gender as None. -/
theorem C4_witness :
    (recommendationPrompt c5Profile "Office" "Cold").isOk = true
      ∧ strContains (chatPrompt "What should I wear" emptyProfile)
          "Gender: None" = true :=
  ⟨C4_prompt_builders_amended.1 c5Profile "Office" "Cold" rfl rfl rfl rfl rfl rfl,
    C4_prompt_builders_amended.2 "What should I wear" emptyProfile rfl⟩

/-- C5: on the spec profile (Female, 28, Athletic, Casual, Blue, Medium)
with occasion Office and weather Cold, the recommendation prompt builder
succeeds and the produced text contains the five requested section labels
and the strings Office and Cold verbatim. -/
theorem C5_prompt_contents :
    (recommendationPrompt c5Profile "Office" "Cold").toOption.map
      (fun prompt =>
        ["1. 3 Outfit Suggestions", "2. Color combinations",
          "3. Accessories recommendation", "4. Styling tips",
          "5. Explain WHY these outfits suit the user", "Office",
          "Cold"].all (fun l => strContains prompt l)) = some true := by
  decide

/-- C6: saving a favorite for alice makes it appear in her favorites list
(with its timestamp), for any prior database; and a user with no favorite
rows gets the empty list. -/
theorem C6_favorites_roundtrip :
    (∀ (db : DB) (ts : String),
        ("text-A", ts) ∈
          get_favorites "alice" (save_favorite "alice" "text-A" ts db))
      ∧ (∀ (u : String) (db : DB),
          (∀ r ∈ db.favorites, r.username ≠ u) → get_favorites u db = []) := by
  constructor
  · intro db ts
    rw [get_favorites_save]
    simp
  · intro u db h
    unfold get_favorites
    rw [List.filter_eq_nil_iff.mpr, List.map_nil]
    intro r hr
    simp [h r hr]

/-- C6 witness: the round trip on the empty database, and the empty result
for bob. -/
theorem C6_witness :
    ("text-A", "2026-10-12 09:00") ∈
        get_favorites "alice"
          (save_favorite "alice" "text-A" "2026-10-12 09:00" DB.empty)
      ∧ get_favorites "bob"
          (save_favorite "alice" "text-A" "2026-10-12 09:00" DB.empty) = [] :=
  ⟨C6_favorites_roundtrip.1 DB.empty "2026-10-12 09:00",
    C6_favorites_roundtrip.2 "bob"
      (save_favorite "alice" "text-A" "2026-10-12 09:00" DB.empty) (by decide)⟩

/-- C7: authentication fails (returns none) for every username/password
pair matching no stored row, and every successful authentication result is
a stored row exactly matching both the username and the password. -/
theorem C7_authenticate :
    (∀ (u p : String) (db : DB),
        (∀ r ∈ db.users, ¬(r.username = u ∧ r.password = p)) →
        login_user u p db = none)
      ∧ (∀ (u p : String) (db : DB) (r : UserRow),
          login_user u p db = some r →
          r.username = u ∧ r.password = p ∧ r ∈ db.users) := by
  constructor
  · intro u p db h
    unfold login_user
    rw [List.find?_eq_none]
    intro r hr
    simp only [Bool.and_eq_true, beq_iff_eq]
    exact h r hr
  · intro u p db r h
    have hp := List.find?_some h
    have hm := List.mem_of_find?_eq_some h
    simp only [Bool.and_eq_true, beq_iff_eq] at hp
    exact ⟨hp.1, hp.2, hm⟩

/-- C7 witness: an unregistered pair is rejected; the registered pair is
accepted and matches exactly. -/
theorem C7_witness :
    login_user "bob" "x" authDB = none
      ∧ (⟨"alice", "pw"⟩ : UserRow).username = "alice"
      ∧ (⟨"alice", "pw"⟩ : UserRow).password = "pw"
      ∧ (⟨"alice", "pw"⟩ : UserRow) ∈ authDB.users :=
  ⟨C7_authenticate.1 "bob" "x" authDB (by decide),
    C7_authenticate.2 "alice" "pw" authDB ⟨"alice", "pw"⟩ (by decide)⟩

/-- C8: starting from the freshly created tables, after any sequence of
`save_favorite` calls, `get_favorites` returns exactly that user's saved
(text, timestamp) pairs in the order the saves were made. -/
theorem C8_favorites_order (ops : List (String × String × String))
    (u : String) :
    get_favorites u (applySaves ops DB.empty)
      = (ops.filter (fun x => x.1 == u)).map (fun x => (x.2.1, x.2.2)) := by
  rw [get_favorites_applySaves]
  rfl

/-- C9 counterexample: a reachable Anonymous state with a nonempty profile:
log in, save the profile, log out. The logout handler clears the user but
the saved profile is still present. -/
theorem C9_counterexample :
    (logoutTransition (saveProfileClick (loginSuccess initSession "alice")
        "Female" 28 "Athletic" ["Casual"] "Blue" "Medium")).user = none
      ∧ (logoutTransition (saveProfileClick (loginSuccess initSession "alice")
          "Female" 28 "Athletic" ["Casual"] "Blue" "Medium")).profile
          = some c5Profile :=
  ⟨rfl, rfl⟩

/-- C9 amended: the profile starts empty at session start, and the logout
transition clears the current user but leaves the session profile exactly
as it was (the profile is discarded only when the underlying session ends). -/
theorem C9_logout_amended :
    initSession.profile = none
      ∧ ∀ s : SessionState,
          (logoutTransition s).user = none
            ∧ (logoutTransition s).profile = s.profile :=
  ⟨rfl, fun _ => ⟨rfl, rfl⟩⟩

/-- C10: whenever `register_user` returns false, the database it returns is
exactly the one it was given: no partial row is inserted and no row is
modified. -/
theorem C10_register_atomic (u p : String) (db : DB)
    (h : (register_user u p db).1 = false) :
    (register_user u p db).2 = db := by
  by_cases hc : db.users.any (fun r => r.username == u) = true
  · unfold register_user
    rw [if_pos hc]
  · exfalso
    unfold register_user at h
    rw [if_neg hc] at h
    simp at h

/-- C10 witness: a failed duplicate registration leaves the table as it
was. -/
theorem C10_witness :
    (register_user "alice" "pw2" ⟨[⟨"alice", "pw1"⟩], []⟩).2
      = ⟨[⟨"alice", "pw1"⟩], []⟩ :=
  C10_register_atomic "alice" "pw2" ⟨[⟨"alice", "pw1"⟩], []⟩ (by decide)

end StyleSense
